import Mathlib

/-!
Shallow embedding of the geometry extraction / repair / coordinate-system
inference pipeline of `backend/dxf_processor.py` (CAD→GIS converter).

Python floats are modelled as `Fl α` (a finite value of an ordered field, or
one of the non-finite floats NaN, +inf, -inf, which `math.isfinite` rejects).
The external geometry library (shapely) and projection library (pyproj) are
modelled as a record of operations `ExtLib α`: the pipeline code under
verification only calls them through this interface.  Fallible library calls
(constructors and operations the Python code wraps in `try`/`except`) return
`Option`.
-/

namespace DxfProcessor

/-- A Python float: either a finite value of the field `α`, or a non-finite
value (`nan`, `inf`, negative infinity).  `math.isfinite` is `Fl.isfinite`. -/
inductive Fl (α : Type) where
  | fin (v : α)
  | nan
  | inf
  | ninf
deriving DecidableEq, Repr

def Fl.isfinite {α : Type} : Fl α → Bool
  | .fin _ => true
  | _ => false

/-- The finite value carried by a float (only meaningful after an
`isfinite` check succeeded, which is how the source uses it). -/
def Fl.val {α : Type} [Zero α] : Fl α → α
  | .fin v => v
  | _ => 0

/-- Shapely geometry values that flow through the pipeline.  The source
constructs `Point`, `LineString` and `Polygon`; `MultiPolygon` and
`MultiLineString` additionally appear as possible outputs of the repair
operation `buffer(0)` and as inputs of the coordinate sampler. -/
inductive Geometry (α : Type) where
  | point (x y : α)
  | lineString (coords : List (α × α))
  | polygon (exterior : List (α × α))
  | multiPolygon (exteriors : List (List (α × α)))
  | multiLineString (lines : List (List (α × α)))
deriving DecidableEq, Repr

/-- Apply a coordinate mapping to every vertex of a geometry (the behaviour
of `shapely.ops.transform` when it succeeds). -/
def mapCoords {α : Type} (f : α × α → α × α) : Geometry α → Geometry α
  | .point x y => .point (f (x, y)).1 (f (x, y)).2
  | .lineString cs => .lineString (cs.map f)
  | .polygon ext => .polygon (ext.map f)
  | .multiPolygon exts => .multiPolygon (exts.map (List.map f))
  | .multiLineString ls => .multiLineString (ls.map (List.map f))

/-- Interface of the external geometry (shapely) and projection (pyproj)
libraries, as used by `dxf_processor.py`.  `none` models the operation
raising an exception.
`mkPolygon` is the `Polygon(points)` constructor, returning the stored
exterior ring; `coordsOk` is whether `list(poly.exterior.coords)` succeeds;
`buffer0` is the `buffer(0)` auto-repair, which may return a geometry of a
different type ("fix self-intersections, possibly returning a different
geometry type"); `shTransform` is `shapely.ops.transform`; `fromCrs` is
`pyproj.Transformer.from_crs`, yielding a per-vertex mapping. -/
structure ExtLib (α : Type) where
  mkPolygon : List (α × α) → Option (List (α × α))
  coordsOk : Geometry α → Bool
  isValid : Geometry α → Bool
  isEmpty : Geometry α → Bool
  buffer0 : Geometry α → Option (Geometry α)
  shTransform : (α × α → α × α) → Geometry α → Option (Geometry α)
  fromCrs : String → String → Option (α × α → α × α)

/-- Structural emptiness of a geometry value. -/
def defaultIsEmpty {α : Type} : Geometry α → Bool
  | .point _ _ => false
  | .lineString cs => cs.isEmpty
  | .polygon ext => ext.isEmpty
  | .multiPolygon exts => exts.isEmpty
  | .multiLineString ls => ls.isEmpty

/-- A happy-path instantiation of the external libraries: constructors store
their input, every geometry is valid, repair and transforms succeed, and
every CRS pair resolves to the identity mapping.  Used to instantiate
theorems at concrete inputs. -/
def trivLib (α : Type) : ExtLib α where
  mkPolygon := some
  coordsOk := fun _ => true
  isValid := fun _ => true
  isEmpty := defaultIsEmpty
  buffer0 := some
  shTransform := fun f g => some (mapCoords f g)
  fromCrs := fun _ _ => some id

/-- Worker for `dedupKeepFirst`: drop elements already seen. -/
def dedupSeen {β : Type} [DecidableEq β] (seen : List β) : List β → List β
  | [] => []
  | x :: xs => if x ∈ seen then dedupSeen seen xs else x :: dedupSeen (x :: seen) xs

/-- Remove duplicates from a list, keeping the first occurrence of each
element (the behaviour of Python's `dict.fromkeys`). -/
def dedupKeepFirst {β : Type} [DecidableEq β] (l : List β) : List β :=
  dedupSeen [] l

/-- Close a point ring: append the first point when it differs from the last
(`if points[0] != points[-1]: points.append(points[0])`). -/
def closeRing {α : Type} [DecidableEq α] (points : List (α × α)) : List (α × α) :=
  match points with
  | [] => []
  | p :: rest =>
      if (p :: rest).getLast (by simp) ≠ p then (p :: rest) ++ [p] else p :: rest

/-- A raw DXF entity's type-specific payload, as read by
`DXFProcessor._entity_to_geometry` (coordinates are Python floats).
`unsupportedE` stands for any entity type outside the supported set. -/
inductive RawEntity (α : Type) where
  | pointE (x y : Fl α)
  | lineE (sx sy ex ey : Fl α)
  | polylineE (vertices : List (Fl α × Fl α)) (closed : Bool)
  | lwpolylineE (pts : List (Fl α × Fl α)) (closed : Bool)
  | circleE (cx cy radius : Fl α)
  | arcE (cx cy radius startAngle endAngle : Fl α)
  | unsupportedE (tag : String)
deriving DecidableEq, Repr

/-- `entity.dxftype()`. -/
def RawEntity.dxftype {α : Type} : RawEntity α → String
  | .pointE _ _ => "POINT"
  | .lineE _ _ _ _ => "LINE"
  | .polylineE _ _ => "POLYLINE"
  | .lwpolylineE _ _ => "LWPOLYLINE"
  | .circleE _ _ _ => "CIRCLE"
  | .arcE _ _ _ _ _ => "ARC"
  | .unsupportedE tag => tag

/-- A modelspace entity: payload plus the DXF attributes the extractor
reads (`entity.dxf.layer`, `entity.dxf.color` with default 256). -/
structure DxfEntity (α : Type) where
  layer : String
  color : Int := 256
  raw : RawEntity α
deriving DecidableEq, Repr

/-- `self.supported_entities` of `DXFProcessor`. -/
def supported_entities : List String :=
  ["LINE", "POLYLINE", "LWPOLYLINE", "CIRCLE", "ARC", "POINT"]

/-- Vertex filtering done by both POLYLINE and LWPOLYLINE branches: keep a
vertex only when both coordinates are finite (bad vertices are discarded
individually, they do not abort the entity). -/
def validPoints {α : Type} [Zero α] (vs : List (Fl α × Fl α)) : List (α × α) :=
  vs.filterMap fun p =>
    if p.1.isfinite && p.2.isfinite then some (p.1.val, p.2.val) else none

/-- The shared POLYLINE/LWPOLYLINE tail of `_entity_to_geometry`
(`dxf_processor.py` lines 351-409): given the surviving valid points and the
closed flag, build a Polygon with fallback to LineString.
Exception paths of the source map to the `none` results of the library
operations; the `LineString` constructor itself is total on the ≥2 finite
points it receives here, so the source's dead defensive
`except` around it (which would return `None`) has no `none` counterpart. -/
def polylinePointsToGeometry {α : Type} [DecidableEq α] (K : ExtLib α)
    (points : List (α × α)) (is_closed : Bool) : Option (Geometry α) :=
  if points.length < 2 then none
  else if is_closed && decide (points.length > 2) then
    -- Ensure polygon is closed
    let pts := closeRing points
    -- Remove duplicates except closing point
    let uniquePoints := dedupKeepFirst pts.dropLast
    if uniquePoints.length < 3 then some (.lineString pts)  -- fall back to LineString
    else
      match K.mkPolygon pts with
      | none => some (.lineString pts)  -- Polygon construction raised
      | some ring =>
          let poly : Geometry α := .polygon ring
          if ¬ K.coordsOk poly then some (.lineString pts)  -- coordinate sequence error
          else
            match (if K.isValid poly then some poly else K.buffer0 poly) with
            | none => some (.lineString pts)  -- buffer(0) raised
            | some repaired =>
                if K.isEmpty repaired then some (.lineString pts)  -- empty polygon
                else some repaired
  else some (.lineString points)

/-- `DXFProcessor._entity_to_geometry`: convert one DXF entity to a shapely
geometry, or `none` when the entity is dropped.  `piv`, `cosf`, `sinf` stand
for `math.pi`, `math.cos`, `math.sin` of the host arithmetic. -/
def entity_to_geometry {α : Type} [LinearOrderedField α] (K : ExtLib α)
    (piv : α) (cosf sinf : α → α) : RawEntity α → Option (Geometry α)
  | .pointE x y =>
      if x.isfinite && y.isfinite then some (.point x.val y.val) else none
  | .lineE sx sy ex ey =>
      if sx.isfinite && sy.isfinite && ex.isfinite && ey.isfinite then
        some (.lineString [(sx.val, sy.val), (ex.val, ey.val)])
      else none
  | .polylineE vertices closed => polylinePointsToGeometry K (validPoints vertices) closed
  | .lwpolylineE pts closed => polylinePointsToGeometry K (validPoints pts) closed
  | .circleE cx cy radius =>
      if ¬ (cx.isfinite && cy.isfinite && radius.isfinite) then none
      else if radius.val ≤ 0 then none
      else
        -- Create circle as polygon with 32 points (33 to close the polygon)
        let circlePoints := (List.range 33).map fun (i : ℕ) =>
          let angle := 2 * piv * (i : α) / 32
          (cx.val + radius.val * cosf angle, cy.val + radius.val * sinf angle)
        match K.mkPolygon circlePoints with
        | some ring => some (.polygon ring)
        | none => none  -- Polygon construction raised
  | .arcE cx cy radius startAngle endAngle =>
      if ¬ (cx.isfinite && cy.isfinite && radius.isfinite) then none
      else if radius.val ≤ 0 then none
      -- math.radians of a float is finite iff the input is finite
      else if ¬ (startAngle.isfinite && endAngle.isfinite) then none
      else
        let sa := startAngle.val * piv / 180
        let ea := endAngle.val * piv / 180
        let angleStep := (ea - sa) / 16
        let pts := (List.range 17).map fun (i : ℕ) =>
          let angle := sa + (i : α) * angleStep
          (cx.val + radius.val * cosf angle, cy.val + radius.val * sinf angle)
        some (.lineString pts)
  | .unsupportedE _ => none

/-- A feature as stored in `geometries_by_layer` (geometry plus the
properties dict built by `_extract_geometries_by_layer`). -/
structure Feature (α : Type) where
  geometry : Geometry α
  layer : String
  entity_type : String
  color : Int
deriving DecidableEq, Repr

/-- Result of `_extract_geometries_by_layer`: layer map (insertion-ordered,
as a Python dict) plus the conversion counters. -/
structure Extraction (α : Type) where
  geometries_by_layer : List (String × List (Feature α))
  total_count : Nat
  skipped_count : Nat
deriving DecidableEq, Repr

/-- Errors raised by the conversion pipeline. -/
inductive ConvError where
  | entityFailed (entityType layerName : String)
  | projectionSetup (sourceCrs targetCrs : String)
deriving DecidableEq, Repr

/-- Register a layer key in the insertion-ordered layer map (done before the
entity is converted, so a failing entity still creates its layer). -/
def addLayer {α : Type} (m : List (String × List (Feature α))) (name : String) :
    List (String × List (Feature α)) :=
  if m.any (·.1 = name) then m else m ++ [(name, [])]

/-- Append a feature to its layer's list. -/
def appendFeature {α : Type} (m : List (String × List (Feature α))) (name : String)
    (f : Feature α) : List (String × List (Feature α)) :=
  m.map fun e => if e.1 = name then (e.1, e.2 ++ [f]) else e

/-- `DXFProcessor._extract_geometries_by_layer`: walk the modelspace
entities in order, skipping unsupported types, converting each supported
entity and grouping surviving features by layer.  In non-strict mode
(`skip_invalid = true`) a failed entity is only counted; in strict mode the
first failure aborts the batch with an error naming type and layer. -/
def extract_geometries_by_layer {α : Type} [LinearOrderedField α] (K : ExtLib α)
    (piv : α) (cosf sinf : α → α) (entities : List (DxfEntity α))
    (skip_invalid : Bool) : Except ConvError (Extraction α) :=
  go entities { geometries_by_layer := [], total_count := 0, skipped_count := 0 }
where
  go : List (DxfEntity α) → Extraction α → Except ConvError (Extraction α)
    | [], acc => .ok acc
    | e :: rest, acc =>
        if e.raw.dxftype ∉ supported_entities then go rest acc
        else
          let layerName := if e.layer = "" then "0" else e.layer
          let m := addLayer acc.geometries_by_layer layerName
          match entity_to_geometry K piv cosf sinf e.raw with
          | some g =>
              go rest { geometries_by_layer :=
                          appendFeature m layerName
                            ⟨g, layerName, e.raw.dxftype, e.color⟩,
                        total_count := acc.total_count + 1,
                        skipped_count := acc.skipped_count }
          | none =>
              if skip_invalid then
                go rest { geometries_by_layer := m,
                          total_count := acc.total_count + 1,
                          skipped_count := acc.skipped_count + 1 }
              else .error (.entityFailed e.raw.dxftype layerName)

/-- `result["type"]` of the coordinate-system detector. -/
inductive CKind where
  | geographic
  | projected
  | unknown
deriving DecidableEq, Repr

/-- `result["likely_system"]` values of the detector (the descriptive
strings of the source, as symbolic constants). -/
inductive LikelySystem where
  | unknownSystem
  | wgs84Geographic
  | usStatePlaneFeet
  | webMercatorOrUtm
  | statePlaneOrWebMercator
  | unknownProjected
deriving DecidableEq, Repr

/-- `result["suggestion"]` values of the detector (the human-readable
guidance strings of the source, as symbolic constants). -/
inductive Advisory where
  | noCoordinatesFound
  | latLongFormat
  | statePlaneFeetHint
  | projectedMetersHint
  | statePlaneOrWebMercatorHint
  | projectedUnclearHint
deriving DecidableEq, Repr

/-- Return value of `detect_coordinate_system_type`. -/
structure CoordClassification (α : Type) where
  kind : CKind
  likely_system : LikelySystem
  sample_coords : List (α × α)
  x_range : α × α
  y_range : α × α
  suggestion : Advisory
deriving DecidableEq, Repr

/-- Sampling loop over the parts of a multi-part geometry: extend by the
first 5 coordinates of each part and stop once the global sample has
reached 50 points (the length check runs after each extension). -/
def multiPartSample {α : Type} (acc : List (α × α)) : List (List (α × α)) → List (α × α)
  | [] => acc
  | part :: rest =>
      let acc' := acc ++ part.take 5
      if 50 ≤ acc'.length then acc' else multiPartSample acc' rest

/-- Extract up to 5 representative coordinates from one geometry, extending
the running sample `acc` (ring/line vertices, or the point itself). -/
def sampleFromGeometry {α : Type} (acc : List (α × α)) : Geometry α → List (α × α)
  | .polygon ext => acc ++ ext.take 5
  | .lineString cs => acc ++ cs.take 5
  | .point x y => acc ++ [(x, y)]
  | .multiPolygon exts => multiPartSample acc exts
  | .multiLineString ls => multiPartSample acc ls

/-- Collect sample coordinates from all layers: first 10 features per
layer, skipping features with a missing (`None`) or empty geometry
(shapely geometries are falsy when empty, so `if geom:` skips both). -/
def sample_coords_of_layers {α : Type}
    (layers : List (String × List (Option (Geometry α)))) : List (α × α) :=
  layers.foldl
    (fun acc l =>
      (l.2.take 10).foldl
        (fun a g? =>
          match g? with
          | some g => if defaultIsEmpty g then a else sampleFromGeometry a g
          | none => a)
        acc)
    []

/-- `detect_coordinate_system_type` (`dxf_processor.py` lines 16-136):
heuristically classify the sampled coordinates as geographic, projected or
unknown, with magnitude-based sub-classification of projected systems. -/
def detect_coordinate_system_type {α : Type} [LinearOrderedField α]
    (layers : List (String × List (Option (Geometry α)))) : CoordClassification α :=
  let sample := sample_coords_of_layers layers
  match sample with
  | [] =>
      { kind := .unknown, likely_system := .unknownSystem, sample_coords := [],
        x_range := (0, 0), y_range := (0, 0), suggestion := .noCoordinatesFound }
  | c :: cs =>
      let xVals := c.1 :: cs.map Prod.fst
      let yVals := c.2 :: cs.map Prod.snd
      let xMin := (cs.map Prod.fst).foldl min c.1
      let xMax := (cs.map Prod.fst).foldl max c.1
      let yMin := (cs.map Prod.snd).foldl min c.2
      let yMax := (cs.map Prod.snd).foldl max c.2
      let sampleField := (c :: cs).take 5
      -- Check if values are within typical lat/long ranges
      if (xVals.all fun x => decide (-180 ≤ x ∧ x ≤ 180)) &&
         (yVals.all fun y => decide (-90 ≤ y ∧ y ≤ 90)) then
        { kind := .geographic, likely_system := .wgs84Geographic,
          sample_coords := sampleField, x_range := (xMin, xMax),
          y_range := (yMin, yMax), suggestion := .latLongFormat }
      else
        let xMagnitude := max |xMin| |xMax|
        let yMagnitude := max |yMin| |yMax|
        if (200000 ≤ xMagnitude ∧ xMagnitude ≤ 20000000) ∧
           (200000 ≤ yMagnitude ∧ yMagnitude ≤ 20000000) then
          let yToXRatio := if 0 < xMagnitude then yMagnitude / xMagnitude else 0
          if yToXRatio > 2 ∨ (xMagnitude > 1000000 ∧ yMagnitude > 1000000) then
            { kind := .projected, likely_system := .usStatePlaneFeet,
              sample_coords := sampleField, x_range := (xMin, xMax),
              y_range := (yMin, yMax), suggestion := .statePlaneFeetHint }
          else
            { kind := .projected, likely_system := .webMercatorOrUtm,
              sample_coords := sampleField, x_range := (xMin, xMax),
              y_range := (yMin, yMax), suggestion := .projectedMetersHint }
        else if (100000 ≤ xMagnitude ∧ xMagnitude ≤ 30000000) ∧
                (100000 ≤ yMagnitude ∧ yMagnitude ≤ 30000000) then
          { kind := .projected, likely_system := .statePlaneOrWebMercator,
            sample_coords := sampleField, x_range := (xMin, xMax),
            y_range := (yMin, yMax), suggestion := .statePlaneOrWebMercatorHint }
        else
          { kind := .projected, likely_system := .unknownProjected,
            sample_coords := sampleField, x_range := (xMin, xMax),
            y_range := (yMin, yMax), suggestion := .projectedUnclearHint }

/-- A GeoDataFrame as the pipeline uses it: validated features plus the
assigned CRS identifier. -/
structure GeoDataFrame (α : Type) where
  features : List (Feature α)
  crs : String
deriving DecidableEq, Repr

/-- Validation of one feature's geometry in `_create_geodataframe`
(`dxf_processor.py` lines 516-557): `none` means the feature is skipped. -/
def validateForGeodataframe {α : Type} (K : ExtLib α) (geom : Geometry α) :
    Option (Geometry α) :=
  if K.isEmpty geom then none  -- skip empty geometry
  else
    let fixed : Option (Geometry α) :=
      if K.isValid geom then some geom
      else
        match K.buffer0 geom with
        | none => none  -- buffer(0) raised; outer except skips the feature
        | some g2 => if ¬ K.isValid g2 || K.isEmpty g2 then none else some g2
    match fixed with
    | none => none
    | some g2 =>
        match g2 with
        | .polygon ring =>
            if ¬ K.coordsOk (.polygon ring) then none  -- coordinate access failed
            else if ring.length < 4 then none  -- insufficient coordinates
            else some (.polygon ring)
        | g => some g

/-- `DXFProcessor._create_geodataframe`: collect the validated features of
all layers.  When nothing survives, the source explicitly returns an
*empty* GeoDataFrame (it does not raise). -/
def create_geodataframe {α : Type} (K : ExtLib α)
    (layers : List (String × List (Feature α))) (crs : String) : GeoDataFrame α :=
  let allFeatures :=
    layers.foldl
      (fun acc l =>
        l.2.foldl
          (fun a f =>
            match validateForGeodataframe K f.geometry with
            | some g => a ++ [{ f with geometry := g }]
            | none => a)
          acc)
      []
  -- `if not all_features: return empty GeoDataFrame` — empty is a success
  { features := allFeatures, crs := crs }

/-- Python's `s.split(":")` on a list of characters. -/
def splitOnColon : List Char → List (List Char)
  | [] => [[]]
  | c :: cs =>
      let r := splitOnColon cs
      if c = ':' then [] :: r
      else
        match r with
        | [] => [[c]]
        | h :: t => (c :: h) :: t

/-- Modelled from the spec of the claim under scrutiny: the substring after
the last `:` of a string, or the whole string when it contains no `:`.
Compared against the source-derived `epsg_code` below. -/
def afterLastColon : List Char → List Char
  | [] => []
  | c :: cs =>
      if cs.contains ':' then afterLastColon cs
      else if c = ':' then cs else c :: cs

/-- `target_crs.split(":")[-1] if ":" in target_crs else target_crs`
(`dxf_processor.py` line 211). -/
def epsg_code (t : String) : String :=
  if t.data.contains ':' then ⟨(splitOnColon t.data).getLastD t.data⟩ else t

/-- The URN-form CRS identifier embedded in the conversion result
(`urn:ogc:def:crs:EPSG::<code>`). -/
def urn_crs (t : String) : String := "urn:ogc:def:crs:EPSG::" ++ epsg_code t

/-- The GeoJSON conversion result: features, CRS identifier in URN form,
and the classifier diagnostics. -/
structure ConvOutput (α : Type) where
  features : List (Feature α)
  crs_name : String
  coordinate_info : CoordClassification α
deriving DecidableEq, Repr

/-- `DXFProcessor.convert_dxf_to_gis` (GeoJSON output path): extract
geometries, classify coordinates, default the source CRS to the target CRS
when none is given, build the GeoDataFrame, reproject only when source and
target differ, and attach the URN-form CRS. -/
def convert_dxf_to_gis {α : Type} [LinearOrderedField α] (K : ExtLib α)
    (piv : α) (cosf sinf : α → α) (entities : List (DxfEntity α))
    (target_crs : String) (source_crs : Option String) (skip_invalid : Bool) :
    Except ConvError (ConvOutput α) := do
  let ext ← extract_geometries_by_layer K piv cosf sinf entities skip_invalid
  let coordInfo : CoordClassification α :=
    detect_coordinate_system_type
      (ext.geometries_by_layer.map fun l => (l.1, l.2.map fun f => some f.geometry))
  let actualSourceCrs := source_crs.getD target_crs
  let gdf := create_geodataframe K ext.geometries_by_layer actualSourceCrs
  let gdf ←
    if actualSourceCrs ≠ target_crs then
      match K.fromCrs actualSourceCrs target_crs with
      | none => Except.error (.projectionSetup actualSourceCrs target_crs)
      | some f =>
          Except.ok { features :=
                        gdf.features.map fun ft =>
                          { ft with geometry := mapCoords f ft.geometry },
                      crs := target_crs }
    else Except.ok gdf
  Except.ok { features := gdf.features, crs_name := urn_crs target_crs,
              coordinate_info := coordInfo }

/-- Validation errors of `apply_scale_to_geojson` (each is a `ValueError`
in the source). -/
inductive ScaleError where
  | notFeatureCollection
  | noFeaturesInInput
  | scaleNotFinite
  | scaleNotPositive
  | scaleOutOfRange
  | badOutputFormat
  | allGeometriesNull
deriving DecidableEq, Repr

/-- Input of `apply_scale_to_geojson`: a GeoJSON FeatureCollection, with a
possibly-null geometry per feature and an optional CRS block. -/
structure ScaleInput (α : Type) where
  typeTag : String
  features : List (Option (Geometry α))
  crs : Option String
deriving DecidableEq, Repr

/-- Output of `apply_scale_to_geojson`: scaled geometries plus the
preserved CRS. -/
structure ScaleOutput (α : Type) where
  features : List (Geometry α)
  crs : Option String
deriving DecidableEq, Repr

/-- `DXFProcessor._scale_geometry_coordinates`: multiply every coordinate
by the factor via `shapely.ops.transform`; an exception is caught and the
geometry is returned unchanged. -/
def scale_geometry_coordinates {α : Type} [Mul α] (K : ExtLib α) (factor : α)
    (geometry : Geometry α) : Geometry α :=
  match K.shTransform (fun p => (p.1 * factor, p.2 * factor)) geometry with
  | some g2 => g2
  | none => geometry

/-- One iteration of the per-geometry scaling loop of
`apply_scale_to_geojson` (lines 679-711): returns the geometry appended to
the output and whether the failure counter is incremented. -/
def scaleStep {α : Type} [Mul α] (K : ExtLib α) (factor : α) (geom : Geometry α) :
    Geometry α × Bool :=
  if K.isEmpty geom then (geom, false)  -- skip empty geometry, pass through
  else
    match (if K.isValid geom then some geom else K.buffer0 geom) with
    | none => (geom, true)  -- could not fix: keep original, count failure
    | some g1 =>
        let scaled := scale_geometry_coordinates K factor g1
        if K.isEmpty scaled then (g1, true)  -- keep pre-scaling geometry, count
        else (scaled, false)

/-- The whole scaling loop: scaled geometries in order plus the failure
count. -/
def scaleLoop {α : Type} [Mul α] (K : ExtLib α) (factor : α) :
    List (Geometry α) → List (Geometry α) × Nat
  | [] => ([], 0)
  | g :: gs =>
      let r := scaleStep K factor g
      let rest := scaleLoop K factor gs
      (r.1 :: rest.1, (if r.2 then 1 else 0) + rest.2)

/-- `DXFProcessor.apply_scale_to_geojson` (`dxf_processor.py` lines
582-746).  Input/parameter validation happens before any geometry is
touched, in source order; the checks on the input being a truthy `dict`
with a `features` list are enforced by the embedding's types. -/
def apply_scale_to_geojson {α : Type} [LinearOrderedField α] (K : ExtLib α)
    (input : ScaleInput α) (scale_factor : Fl α) (output_format : String) :
    Except ScaleError (ScaleOutput α) :=
  if input.typeTag ≠ "FeatureCollection" then .error .notFeatureCollection
  else if input.features.length = 0 then .error .noFeaturesInInput
  -- Validate scale factor
  else if ¬ scale_factor.isfinite then .error .scaleNotFinite
  else if scale_factor.val ≤ 0 then .error .scaleNotPositive
  else if ¬ (9/10 ≤ scale_factor.val ∧ scale_factor.val ≤ 11/10) then
    .error .scaleOutOfRange
  -- Validate output format
  else if output_format ≠ "geojson" then .error .badOutputFormat
  -- All geometries null or invalid
  else if input.features.all Option.isNone then .error .allGeometriesNull
  else
    -- Remove any null geometries, then scale with per-item fault isolation
    let geoms := input.features.filterMap id
    let scaled := scaleLoop K scale_factor.val geoms
    .ok { features := scaled.1, crs := input.crs }

/-- A geometry record handed to the standalone `transform_coordinates`
utility (a dict with a `geometry` key plus other keys, which are
preserved). -/
structure GeomRecord (α : Type) where
  geometry : Option (Geometry α)
  props : List (String × String)
deriving DecidableEq, Repr

/-- Standalone `transform_coordinates` (`dxf_processor.py` lines 769-799):
identical source and target CRS is a no-op returning the input list
itself; otherwise build one transformer for the pair and map it over every
geometry, any failure aborting the whole batch. -/
def transform_coordinates {α : Type} (K : ExtLib α)
    (geometries : List (GeomRecord α)) (source_crs target_crs : String) :
    Except ConvError (List (GeomRecord α)) :=
  if source_crs = target_crs then .ok geometries
  else
    match K.fromCrs source_crs target_crs with
    | none => .error (.projectionSetup source_crs target_crs)
    | some f =>
        go f geometries
where
  go (f : α × α → α × α) : List (GeomRecord α) → Except ConvError (List (GeomRecord α))
    | [] => .ok []
    | gd :: rest => do
        let rest' ← go f rest
        match gd.geometry with
        | some g =>
            match K.shTransform f g with
            | none => .error (.projectionSetup source_crs target_crs)
            | some g' => .ok ({ gd with geometry := some g' } :: rest')
        | none => .ok (gd :: rest')

/-- A one-feature FeatureCollection over ℚ, used to instantiate theorems. -/
def fcInput : ScaleInput ℚ :=
  { typeTag := "FeatureCollection", features := [some (.point 1 2)], crs := none }

/-- A zero-feature FeatureCollection over ℚ. -/
def fcEmptyInput : ScaleInput ℚ :=
  { typeTag := "FeatureCollection", features := [], crs := none }

/-- The vertex list of a closed self-intersecting ("bowtie") polyline. -/
def bowtiePoints : List (ℚ × ℚ) := [(0, 0), (2, 2), (2, 0), (0, 2)]

/-- The two triangles into which shapely's `buffer(0)` splits the bowtie
ring (self-intersection elimination returns a MultiPolygon here). -/
def bowtieTriangles : List (List (ℚ × ℚ)) :=
  [[(0, 0), (1, 1), (0, 2), (0, 0)], [(1, 1), (2, 2), (2, 0), (1, 1)]]

/-- A library instantiation reproducing shapely's behaviour on the bowtie
ring: the self-intersecting ring is invalid, and `buffer(0)` repairs it
into a (valid, non-empty) MultiPolygon of two triangles. -/
def Kbow : ExtLib ℚ where
  mkPolygon := some
  coordsOk := fun _ => true
  isValid := fun g =>
    match g with
    | .polygon ring => decide (ring ≠ closeRing bowtiePoints)
    | _ => true
  isEmpty := defaultIsEmpty
  buffer0 := fun _ => some (.multiPolygon bowtieTriangles)
  shTransform := fun f g => some (mapCoords f g)
  fromCrs := fun _ _ => some id

/-- A library instantiation in which `shapely.ops.transform` raises on
every geometry (every other operation behaves normally). -/
def Kraise : ExtLib ℚ where
  mkPolygon := some
  coordsOk := fun _ => true
  isValid := fun _ => true
  isEmpty := defaultIsEmpty
  buffer0 := some
  shTransform := fun _ _ => none
  fromCrs := fun _ _ => some id

theorem dedupSeen_length_le {β : Type} [DecidableEq β] :
    ∀ (l seen : List β), (dedupSeen seen l).length ≤ l.length := by
  intro l
  induction l with
  | nil => intro seen; simp [dedupSeen]
  | cons x xs ih =>
      intro seen
      rw [dedupSeen]
      by_cases hx : x ∈ seen
      · rw [if_pos hx]
        exact le_trans (ih seen) (by simp)
      · rw [if_neg hx]
        simpa using ih (x :: seen)

theorem dedupKeepFirst_length_le {β : Type} [DecidableEq β] :
    ∀ l : List β, (dedupKeepFirst l).length ≤ l.length := fun l =>
  dedupSeen_length_le l []

theorem closeRing_length_cases {α : Type} [DecidableEq α] (l : List (α × α)) :
    (closeRing l).length = l.length ∨ (closeRing l).length = l.length + 1 := by
  match l with
  | [] => left; rfl
  | p :: rest =>
      rw [closeRing]
      split
      · right; simp
      · left; rfl

theorem extract_total {α : Type} [LinearOrderedField α] (K : ExtLib α)
    (piv : α) (cosf sinf : α → α) (entities : List (DxfEntity α)) :
    ∃ ext, extract_geometries_by_layer K piv cosf sinf entities true = .ok ext := by
  suffices h : ∀ acc, ∃ ext,
      extract_geometries_by_layer.go K piv cosf sinf true entities acc = .ok ext by
    exact h _
  induction entities with
  | nil => intro acc; exact ⟨acc, rfl⟩
  | cons e rest ih =>
      intro acc
      rw [extract_geometries_by_layer.go]
      by_cases hsupp : e.raw.dxftype ∉ supported_entities
      · rw [if_pos hsupp]; exact ih acc
      · rw [if_neg hsupp]
        cases hg : entity_to_geometry K piv cosf sinf e.raw with
        | some g => simp only [hg]; exact ih _
        | none => simp only [hg, if_pos]; exact ih _

theorem splitOnColon_ne_nil : ∀ t : List Char, splitOnColon t ≠ [] := by
  intro t
  match t with
  | [] => simp [splitOnColon]
  | c :: cs =>
      rw [splitOnColon]
      split
      · simp
      · split <;> simp

theorem splitOnColon_of_not_contains :
    ∀ t : List Char, t.contains ':' = false → splitOnColon t = [t] := by
  intro t
  induction t with
  | nil => intro _; rfl
  | cons c cs ih =>
      intro h
      simp only [List.contains_cons, Bool.or_eq_false_iff, beq_eq_false_iff_ne] at h
      rw [splitOnColon, if_neg (fun hh => h.1 hh.symm), ih h.2]

theorem splitOnColon_length_of_contains :
    ∀ t : List Char, t.contains ':' = true → 2 ≤ (splitOnColon t).length := by
  intro t
  induction t with
  | nil => intro h; simp [List.contains] at h
  | cons c cs ih =>
      intro h
      simp only [List.contains_cons, Bool.or_eq_true] at h
      rw [splitOnColon]
      by_cases hc : c = ':'
      · rw [if_pos hc]
        have := splitOnColon_ne_nil cs
        have : 1 ≤ (splitOnColon cs).length := by
          cases hcs : splitOnColon cs with
          | nil => exact absurd hcs this
          | cons a b => simp
        simpa using this
      · rw [if_neg hc]
        have hcs : cs.contains ':' = true := by
          rcases h with h | h
          · simp only [beq_iff_eq] at h
            exact absurd h.symm hc
          · exact h
        have h2 := ih hcs
        cases hsp : splitOnColon cs with
        | nil => exact absurd hsp (splitOnColon_ne_nil cs)
        | cons a b => rw [hsp] at h2; simpa using h2

theorem afterLastColon_of_not_contains :
    ∀ t : List Char, t.contains ':' = false → afterLastColon t = t := by
  intro t
  induction t with
  | nil => intro _; rfl
  | cons c cs _ =>
      intro h
      simp only [List.contains_cons, Bool.or_eq_false_iff, beq_eq_false_iff_ne] at h
      rw [afterLastColon, if_neg (by rw [h.2]; exact Bool.false_ne_true),
        if_neg (fun hh => h.1 hh.symm)]

theorem getLastD_splitOnColon :
    ∀ (t : List Char) (d : List Char), (splitOnColon t).getLastD d = afterLastColon t := by
  intro t
  induction t with
  | nil => intro d; rfl
  | cons c cs ih =>
      intro d
      rw [splitOnColon, afterLastColon]
      by_cases hc : c = ':'
      · rw [if_pos hc]
        rw [List.getLastD_cons, ih]
        by_cases hcs : cs.contains ':'
        · rw [if_pos hcs]
        · rw [if_neg hcs, afterLastColon_of_not_contains cs (by simpa using hcs),
            if_pos hc]
      · rw [if_neg hc]
        by_cases hcs : cs.contains ':'
        · -- split of cs has ≥ 2 pieces; prepending c to the head piece
          -- keeps the last piece
          have h2 := splitOnColon_length_of_contains cs hcs
          cases hsp : splitOnColon cs with
          | nil => exact absurd hsp (splitOnColon_ne_nil cs)
          | cons a b =>
              rw [hsp] at h2
              cases b with
              | nil => simp at h2
              | cons b0 bs =>
                  rw [if_pos hcs]
                  have := ih d
                  rw [hsp] at this
                  simp only [List.getLastD_cons] at this ⊢
                  rw [← this]
        · have hsp := splitOnColon_of_not_contains cs (by simpa using hcs)
          rw [hsp, if_neg hcs, if_neg hc]
          rfl

theorem scaleLoop_spec {α : Type} [Mul α] (K : ExtLib α) (factor : α) :
    ∀ gs : List (Geometry α),
      (scaleLoop K factor gs).1 = gs.map (fun g => (scaleStep K factor g).1) ∧
      (scaleLoop K factor gs).2 =
        (gs.filter (fun g => (scaleStep K factor g).2)).length := by
  intro gs
  induction gs with
  | nil => exact ⟨rfl, rfl⟩
  | cons g rest ih =>
      cases hr : (scaleStep K factor g).2 <;>
        simp [scaleLoop, hr, ih.1, ih.2, Nat.add_comm]

/-- C2: a scale factor that is not finite, not positive, or outside the
[0.9, 1.1] band makes `apply_scale_to_geojson` fail with the corresponding
validation error; the function returns no output (so no geometry is
modified), and out-of-band values are rejected, never clamped. -/
theorem scale_factor_rejected_before_geometry {α : Type} [LinearOrderedField α]
    (K : ExtLib α) (input : ScaleInput α) (f : Fl α) (fmt : String)
    (htag : input.typeTag = "FeatureCollection")
    (hne : input.features ≠ [])
    (hbad : ¬ (f.isfinite = true ∧ 0 < f.val ∧ 9/10 ≤ f.val ∧ f.val ≤ 11/10)) :
    ∃ e, apply_scale_to_geojson K input f fmt = .error e ∧
      (e = .scaleNotFinite ∨ e = .scaleNotPositive ∨ e = .scaleOutOfRange) := by
  rw [apply_scale_to_geojson]
  rw [if_neg (by simp [htag])]
  rw [if_neg (by simpa [List.length_eq_zero] using hne)]
  by_cases hfin : f.isfinite = true
  · by_cases hpos : f.val ≤ 0
    · rw [if_neg (by simp [hfin]), if_pos hpos]
      exact ⟨_, rfl, Or.inr (Or.inl rfl)⟩
    · have hband : ¬ (9/10 ≤ f.val ∧ f.val ≤ 11/10) := fun hb =>
        hbad ⟨hfin, lt_of_not_le hpos, hb.1, hb.2⟩
      rw [if_neg (by simp [hfin]), if_neg hpos, if_pos hband]
      exact ⟨_, rfl, Or.inr (Or.inr rfl)⟩
  · rw [if_pos (by simpa using hfin)]
    exact ⟨_, rfl, Or.inl rfl⟩

theorem scale_factor_rejected_before_geometry_witness :
    fcInput.typeTag = "FeatureCollection" ∧ fcInput.features ≠ [] ∧
    ¬ ((Fl.fin (3/2 : ℚ)).isfinite = true ∧ 0 < (Fl.fin (3/2 : ℚ)).val ∧
        9/10 ≤ (Fl.fin (3/2 : ℚ)).val ∧ (Fl.fin (3/2 : ℚ)).val ≤ 11/10) ∧
    ∃ e, apply_scale_to_geojson (trivLib ℚ) fcInput (Fl.fin (3/2)) "geojson" =
        .error e ∧
      (e = .scaleNotFinite ∨ e = .scaleNotPositive ∨ e = .scaleOutOfRange) :=
  ⟨rfl, by simp [fcInput], by norm_num [Fl.val, Fl.isfinite],
    scale_factor_rejected_before_geometry (trivLib ℚ) fcInput (Fl.fin (3/2))
      "geojson" rfl (by simp [fcInput]) (by norm_num [Fl.val, Fl.isfinite])⟩

/-- C6: a zero-feature input batch is rejected with a validation error (the
`GeoJSON contains no features to scale` `ValueError`), never an empty
success; a well-formed batch with at least one non-null geometry and a
valid scale factor succeeds as a whole, with one output geometry per
non-null input geometry. -/
theorem scale_empty_batch_rejected {α : Type} [LinearOrderedField α] (K : ExtLib α) :
    (∀ (input : ScaleInput α) (f : Fl α) (fmt : String),
        input.typeTag = "FeatureCollection" → input.features = [] →
        apply_scale_to_geojson K input f fmt = .error .noFeaturesInInput) ∧
    (∀ (input : ScaleInput α) (f : Fl α),
        input.typeTag = "FeatureCollection" → input.features ≠ [] →
        ¬ input.features.all Option.isNone →
        f.isfinite = true → 0 < f.val → 9/10 ≤ f.val → f.val ≤ 11/10 →
        ∃ out, apply_scale_to_geojson K input f "geojson" = .ok out ∧
          out.features.length = (input.features.filterMap id).length) := by
  constructor
  · intro input f fmt htag hempty
    rw [apply_scale_to_geojson, if_neg (by simp [htag]), if_pos (by simp [hempty])]
  · intro input f htag hne hsome hfin hpos hlo hhi
    rw [apply_scale_to_geojson]
    rw [if_neg (by simp [htag])]
    rw [if_neg (by simpa [List.length_eq_zero] using hne)]
    rw [if_neg (by simp [hfin])]
    rw [if_neg (not_le_of_lt hpos)]
    rw [if_neg (by simp [hlo, hhi])]
    rw [if_neg (by simp)]
    rw [if_neg hsome]
    exact ⟨_, rfl, by
      simpa using ((scaleLoop_spec K f.val (input.features.filterMap id)).1 ▸
        (input.features.filterMap id).length_map _)⟩

theorem scale_empty_batch_rejected_witness :
    (apply_scale_to_geojson (trivLib ℚ) fcEmptyInput (Fl.fin 1) "geojson" =
        .error .noFeaturesInInput) ∧
    (∃ out, apply_scale_to_geojson (trivLib ℚ) fcInput (Fl.fin 1) "geojson" =
        .ok out ∧ out.features.length = (fcInput.features.filterMap id).length) :=
  ⟨(scale_empty_batch_rejected (trivLib ℚ)).1 fcEmptyInput (Fl.fin 1) "geojson" rfl rfl,
    (scale_empty_batch_rejected (trivLib ℚ)).2 fcInput (Fl.fin 1) rfl (by simp [fcInput])
      (by decide) rfl (by norm_num [Fl.val]) (by norm_num [Fl.val]) (by norm_num [Fl.val])⟩

/-- C9: reprojecting with identical source and target CRS is a no-op: the
standalone `transform_coordinates` returns the input geometry list itself,
and the conversion pipeline skips the reprojection step entirely, so its
output features are exactly those produced before reprojection. -/
theorem reproject_same_crs_noop {α : Type} [LinearOrderedField α] :
    (∀ (K : ExtLib α) (gs : List (GeomRecord α)) (A : String),
        transform_coordinates K gs A A = .ok gs) ∧
    (∀ (K : ExtLib α) (piv : α) (cosf sinf : α → α)
        (entities : List (DxfEntity α)) (A : String),
        ∃ ext, extract_geometries_by_layer K piv cosf sinf entities true = .ok ext ∧
          convert_dxf_to_gis K piv cosf sinf entities A (some A) true =
            .ok { features := (create_geodataframe K ext.geometries_by_layer A).features,
                  crs_name := urn_crs A,
                  coordinate_info := detect_coordinate_system_type
                    (ext.geometries_by_layer.map fun l =>
                      (l.1, l.2.map fun f => some f.geometry)) }) := by
  constructor
  · intro K gs A
    rw [transform_coordinates, if_pos rfl]
  · intro K piv cosf sinf entities A
    obtain ⟨ext, hext⟩ := extract_total K piv cosf sinf entities
    exact ⟨ext, hext, by simp [convert_dxf_to_gis, hext, Bind.bind, Except.bind]⟩

/-- C10: the CRS identifier embedded in the conversion result is always
`urn:ogc:def:crs:EPSG::` followed by the substring of `target_crs` after
its last `:` (the whole string when it has no `:`), regardless of the
authority prefix — so `ESRI:102006` is emitted as an EPSG URN too. -/
theorem crs_urn_uses_last_segment :
    (∀ t : String,
        urn_crs t = "urn:ogc:def:crs:EPSG::" ++ String.mk (afterLastColon t.data)) ∧
    urn_crs "ESRI:102006" = "urn:ogc:def:crs:EPSG::102006" ∧
    urn_crs "4326" = "urn:ogc:def:crs:EPSG::4326" ∧
    (∀ (K : ExtLib ℚ) (piv : ℚ) (cosf sinf : ℚ → ℚ) (entities : List (DxfEntity ℚ))
        (tgt : String) (src : Option String) (skip : Bool) (out : ConvOutput ℚ),
        convert_dxf_to_gis K piv cosf sinf entities tgt src skip = .ok out →
        out.crs_name = urn_crs tgt) := by
  refine ⟨?_, by decide, by decide, ?_⟩
  · intro t
    rw [urn_crs, epsg_code]
    by_cases h : t.data.contains ':'
    · rw [if_pos h, getLastD_splitOnColon]
    · rw [if_neg h, afterLastColon_of_not_contains t.data (by simpa using h)]
  · intro K piv cosf sinf entities tgt src skip out h
    rw [convert_dxf_to_gis] at h
    cases hext : extract_geometries_by_layer K piv cosf sinf entities skip with
    | error e => rw [hext] at h; exact absurd h (by simp [Bind.bind, Except.bind])
    | ok ext =>
        rw [hext] at h
        simp only [Bind.bind, Except.bind] at h
        split at h
        · split at h
          · exact absurd h (by simp)
          · cases h; rfl
        · cases h; rfl

theorem geo_cond_iff {α : Type} [LinearOrderedField α] (c : α × α) (cs : List (α × α)) :
    ((((c.1 :: cs.map Prod.fst).all fun x => decide (-180 ≤ x ∧ x ≤ 180)) &&
      ((c.2 :: cs.map Prod.snd).all fun y => decide (-90 ≤ y ∧ y ≤ 90))) = true) ↔
    ∀ p ∈ c :: cs, (-180 ≤ p.1 ∧ p.1 ≤ 180) ∧ (-90 ≤ p.2 ∧ p.2 ≤ 90) := by
  simp only [Bool.and_eq_true, List.all_cons, List.all_eq_true,
    decide_eq_true_eq, List.mem_cons, forall_eq_or_imp]
  constructor
  · rintro h
    refine ⟨⟨h.1.1, h.2.1⟩, fun p hp => ⟨h.1.2 p.1 (List.mem_map_of_mem Prod.fst hp),
      h.2.2 p.2 (List.mem_map_of_mem Prod.snd hp)⟩⟩
  · intro h
    refine ⟨⟨h.1.1, fun x hx => ?_⟩, h.1.2, fun y hy => ?_⟩
    · obtain ⟨p, hp, rfl⟩ := List.mem_map.mp hx
      exact (h.2 p hp).1
    · obtain ⟨p, hp, rfl⟩ := List.mem_map.mp hy
      exact (h.2 p hp).2

/-- C7: with a non-empty coordinate sample entirely inside the
[-180, 180] × [-90, 90] box the classifier returns kind `geographic` with
the latitude/longitude suggestion; with a non-empty sample not entirely
inside the box it returns kind `projected` (hence projected-or-unknown);
with an empty sample it returns `unknown` with the explanatory suggestion
and zeroed ranges. -/
theorem classifier_kind_by_range {α : Type} [LinearOrderedField α] :
    (∀ layers : List (String × List (Option (Geometry α))),
        sample_coords_of_layers layers ≠ [] →
        (∀ p ∈ sample_coords_of_layers layers,
            (-180 ≤ p.1 ∧ p.1 ≤ 180) ∧ (-90 ≤ p.2 ∧ p.2 ≤ 90)) →
        (detect_coordinate_system_type layers).kind = .geographic ∧
        (detect_coordinate_system_type layers).suggestion = .latLongFormat) ∧
    (∀ layers : List (String × List (Option (Geometry α))),
        sample_coords_of_layers layers ≠ [] →
        ¬ (∀ p ∈ sample_coords_of_layers layers,
            (-180 ≤ p.1 ∧ p.1 ≤ 180) ∧ (-90 ≤ p.2 ∧ p.2 ≤ 90)) →
        (detect_coordinate_system_type layers).kind = .projected ∨
        (detect_coordinate_system_type layers).kind = .unknown) ∧
    (∀ layers : List (String × List (Option (Geometry α))),
        sample_coords_of_layers layers = [] →
        detect_coordinate_system_type layers =
          { kind := .unknown, likely_system := .unknownSystem, sample_coords := [],
            x_range := (0, 0), y_range := (0, 0),
            suggestion := .noCoordinatesFound }) := by
  refine ⟨?_, ?_, ?_⟩
  · intro layers hne hbox
    cases hs : sample_coords_of_layers layers with
    | nil => exact absurd hs hne
    | cons c cs =>
        rw [hs] at hbox
        simp only [detect_coordinate_system_type, hs]
        rw [if_pos ((geo_cond_iff c cs).mpr hbox)]
        exact ⟨rfl, rfl⟩
  · intro layers hne hbox
    cases hs : sample_coords_of_layers layers with
    | nil => exact absurd hs hne
    | cons c cs =>
        rw [hs] at hbox
        have hcond : (((c.1 :: cs.map Prod.fst).all fun x => decide (-180 ≤ x ∧ x ≤ 180)) &&
            ((c.2 :: cs.map Prod.snd).all fun y => decide (-90 ≤ y ∧ y ≤ 90))) = false := by
          rcases Bool.eq_false_or_eq_true (((c.1 :: cs.map Prod.fst).all
              fun x => decide (-180 ≤ x ∧ x ≤ 180)) &&
            ((c.2 :: cs.map Prod.snd).all fun y => decide (-90 ≤ y ∧ y ≤ 90))) with h | h
          · exact absurd ((geo_cond_iff c cs).mp h) hbox
          · exact h
        left
        simp only [detect_coordinate_system_type, hs]
        rw [if_neg (by rw [hcond]; exact Bool.false_ne_true)]
        repeat' split
        all_goals rfl
  · intro layers hs
    simp [detect_coordinate_system_type, hs]

theorem classifier_kind_by_range_witness :
    ([("L", [some (Geometry.point (10 : ℚ) 20)])].map
        (fun l => sample_coords_of_layers [l])) = [[((10 : ℚ), (20 : ℚ))]] ∧
    ((detect_coordinate_system_type
        [("L", [some (Geometry.point (10 : ℚ) 20)])]).kind = .geographic ∧
      (detect_coordinate_system_type
        [("L", [some (Geometry.point (10 : ℚ) 20)])]).suggestion = .latLongFormat) ∧
    ((detect_coordinate_system_type
        [("L", [some (Geometry.point (300 : ℚ) 0)])]).kind = .projected ∨
      (detect_coordinate_system_type
        [("L", [some (Geometry.point (300 : ℚ) 0)])]).kind = .unknown) ∧
    detect_coordinate_system_type ([] : List (String × List (Option (Geometry ℚ)))) =
      { kind := .unknown, likely_system := .unknownSystem, sample_coords := [],
        x_range := (0, 0), y_range := (0, 0), suggestion := .noCoordinatesFound } :=
  ⟨rfl,
    classifier_kind_by_range.1 [("L", [some (Geometry.point 10 20)])]
      (by simp [sample_coords_of_layers, sampleFromGeometry, defaultIsEmpty])
      (by
        intro p hp
        simp [sample_coords_of_layers, sampleFromGeometry, defaultIsEmpty] at hp
        subst hp
        norm_num),
    classifier_kind_by_range.2.1 [("L", [some (Geometry.point 300 0)])]
      (by simp [sample_coords_of_layers, sampleFromGeometry, defaultIsEmpty])
      (by
        intro h
        have := h (300, 0)
          (by simp [sample_coords_of_layers, sampleFromGeometry, defaultIsEmpty])
        norm_num at this),
    classifier_kind_by_range.2.2 [] rfl⟩

/-- C8: sub-classification of projected samples by axis magnitude
(`magnitude` = max of absolute axis extrema): inside the tight band
[200000, 20000000] on both axes, a y/x magnitude ratio above 2 or both
magnitudes above 1000000 labels US State Plane (US survey feet), else Web
Mercator or UTM (meters); both magnitudes inside the loose band
[100000, 30000000] but not the tight band labels the lower-confidence
projected guess; anything else labels an unknown projected system. -/
theorem classifier_projected_magnitudes {α : Type} [LinearOrderedField α]
    (layers : List (String × List (Option (Geometry α)))) (c : α × α)
    (cs : List (α × α)) (hs : sample_coords_of_layers layers = c :: cs)
    (hnotgeo : ¬ (∀ p ∈ c :: cs, (-180 ≤ p.1 ∧ p.1 ≤ 180) ∧ (-90 ≤ p.2 ∧ p.2 ≤ 90)))
    (xMagnitude yMagnitude : α)
    (hx : xMagnitude = max |(cs.map Prod.fst).foldl min c.1|
        |(cs.map Prod.fst).foldl max c.1|)
    (hy : yMagnitude = max |(cs.map Prod.snd).foldl min c.2|
        |(cs.map Prod.snd).foldl max c.2|) :
    (((200000 ≤ xMagnitude ∧ xMagnitude ≤ 20000000) ∧
      (200000 ≤ yMagnitude ∧ yMagnitude ≤ 20000000)) →
        ((yMagnitude / xMagnitude > 2 ∨ (xMagnitude > 1000000 ∧ yMagnitude > 1000000)) →
            (detect_coordinate_system_type layers).likely_system = .usStatePlaneFeet) ∧
        (¬ (yMagnitude / xMagnitude > 2 ∨ (xMagnitude > 1000000 ∧ yMagnitude > 1000000)) →
            (detect_coordinate_system_type layers).likely_system = .webMercatorOrUtm)) ∧
    (¬ ((200000 ≤ xMagnitude ∧ xMagnitude ≤ 20000000) ∧
        (200000 ≤ yMagnitude ∧ yMagnitude ≤ 20000000)) →
      ((100000 ≤ xMagnitude ∧ xMagnitude ≤ 30000000) ∧
       (100000 ≤ yMagnitude ∧ yMagnitude ≤ 30000000)) →
      (detect_coordinate_system_type layers).likely_system = .statePlaneOrWebMercator) ∧
    (¬ ((200000 ≤ xMagnitude ∧ xMagnitude ≤ 20000000) ∧
        (200000 ≤ yMagnitude ∧ yMagnitude ≤ 20000000)) →
      ¬ ((100000 ≤ xMagnitude ∧ xMagnitude ≤ 30000000) ∧
         (100000 ≤ yMagnitude ∧ yMagnitude ≤ 30000000)) →
      (detect_coordinate_system_type layers).likely_system = .unknownProjected) := by
  have hcond : (((c.1 :: cs.map Prod.fst).all fun x => decide (-180 ≤ x ∧ x ≤ 180)) &&
      ((c.2 :: cs.map Prod.snd).all fun y => decide (-90 ≤ y ∧ y ≤ 90))) = false := by
    rcases Bool.eq_false_or_eq_true (((c.1 :: cs.map Prod.fst).all
        fun x => decide (-180 ≤ x ∧ x ≤ 180)) &&
      ((c.2 :: cs.map Prod.snd).all fun y => decide (-90 ≤ y ∧ y ≤ 90))) with h | h
    · exact absurd ((geo_cond_iff c cs).mp h) hnotgeo
    · exact h
  subst hx hy
  refine ⟨fun hband => ⟨fun hratio => ?_, fun hratio => ?_⟩,
    fun hband hloose => ?_, fun hband hloose => ?_⟩
  · have hxpos : (0 : α) < max |(cs.map Prod.fst).foldl min c.1|
        |(cs.map Prod.fst).foldl max c.1| :=
      lt_of_lt_of_le (by norm_num) hband.1.1
    simp only [detect_coordinate_system_type, hs]
    rw [if_neg (by rw [hcond]; exact Bool.false_ne_true), if_pos hband,
      if_pos hxpos, if_pos hratio]
  · have hxpos : (0 : α) < max |(cs.map Prod.fst).foldl min c.1|
        |(cs.map Prod.fst).foldl max c.1| :=
      lt_of_lt_of_le (by norm_num) hband.1.1
    simp only [detect_coordinate_system_type, hs]
    rw [if_neg (by rw [hcond]; exact Bool.false_ne_true), if_pos hband,
      if_pos hxpos, if_neg hratio]
  · simp only [detect_coordinate_system_type, hs]
    rw [if_neg (by rw [hcond]; exact Bool.false_ne_true), if_neg hband,
      if_pos hloose]
  · simp only [detect_coordinate_system_type, hs]
    rw [if_neg (by rw [hcond]; exact Bool.false_ne_true), if_neg hband,
      if_neg hloose]

theorem classifier_projected_magnitudes_witness :
    sample_coords_of_layers [("L", [some (Geometry.point (5000000 : ℚ) 12000000)])] =
      [((5000000 : ℚ), (12000000 : ℚ))] ∧
    (detect_coordinate_system_type
        [("L", [some (Geometry.point (5000000 : ℚ) 12000000)])]).likely_system =
      .usStatePlaneFeet :=
  ⟨rfl,
    ((classifier_projected_magnitudes [("L", [some (Geometry.point 5000000 12000000)])]
        ((5000000 : ℚ), (12000000 : ℚ)) [] rfl
        (by
          intro h
          have hc := h (5000000, 12000000) (List.mem_singleton.mpr rfl)
          norm_num at hc)
        5000000 12000000
        (by norm_num) (by norm_num)).1
      (by norm_num)).1
      (Or.inl (by norm_num))⟩

/-- C3 (amended): per-geometry scaling failures are isolated and no feature
is ever dropped: the output has exactly one geometry per input geometry, in
order; an empty geometry passes through unchanged and uncounted; an invalid
geometry gets exactly one `buffer(0)` repair attempt, and if that raises the
original is kept and counted; if scaling the (possibly repaired) geometry
yields an empty result, the pre-scaling (possibly repaired, not necessarily
original) geometry is kept and counted; and when the underlying coordinate
transform raises, the exception is swallowed inside the scaling helper,
which returns its input geometry — so such a geometry is kept but *not*
counted as failed.  The failure count equals the number of counted items. -/
theorem scale_per_geometry_isolation {α : Type} [LinearOrderedField α]
    (K : ExtLib α) (factor : α) :
    (∀ gs : List (Geometry α),
        (scaleLoop K factor gs).1.length = gs.length ∧
        (scaleLoop K factor gs).1 = gs.map (fun g => (scaleStep K factor g).1) ∧
        (scaleLoop K factor gs).2 =
          (gs.filter (fun g => (scaleStep K factor g).2)).length) ∧
    (∀ g, K.isEmpty g = true → scaleStep K factor g = (g, false)) ∧
    (∀ g, K.isEmpty g = false → K.isValid g = false → K.buffer0 g = none →
        scaleStep K factor g = (g, true)) ∧
    (∀ g g1, K.isEmpty g = false →
        (if K.isValid g then some g else K.buffer0 g) = some g1 →
        K.isEmpty (scale_geometry_coordinates K factor g1) = true →
        scaleStep K factor g = (g1, true)) ∧
    (∀ g g1, K.isEmpty g = false →
        (if K.isValid g then some g else K.buffer0 g) = some g1 →
        K.isEmpty (scale_geometry_coordinates K factor g1) = false →
        scaleStep K factor g = (scale_geometry_coordinates K factor g1, false)) ∧
    (∀ g, K.shTransform (fun p => (p.1 * factor, p.2 * factor)) g = none →
        scale_geometry_coordinates K factor g = g) := by
  refine ⟨?_, ?_, ?_, ?_, ?_, ?_⟩
  · intro gs
    obtain ⟨h1, h2⟩ := scaleLoop_spec K factor gs
    exact ⟨by rw [h1]; exact gs.length_map _, h1, h2⟩
  · intro g h
    simp [scaleStep, h]
  · intro g h1 h2 h3
    simp [scaleStep, h1, h2, h3]
  · intro g g1 h1 h2 h3
    simp [scaleStep, h1, h2, h3]
  · intro g g1 h1 h2 h3
    simp [scaleStep, h1, h2, h3]
  · intro g h
    simp [scale_geometry_coordinates, h]

theorem scale_per_geometry_isolation_witness :
    (trivLib ℚ).isEmpty (Geometry.lineString []) = true ∧
    scaleStep (trivLib ℚ) 1 (Geometry.lineString []) = (Geometry.lineString [], false) ∧
    (scaleLoop (trivLib ℚ) 1 [Geometry.point 1 2]).1.length = 1 :=
  ⟨rfl, (scale_per_geometry_isolation (trivLib ℚ) 1).2.1 (Geometry.lineString []) rfl,
    by simpa using ((scale_per_geometry_isolation (trivLib ℚ) 1).1 [Geometry.point 1 2]).1⟩

/-- C3 counterexample: `Kraise` is a library instantiation where
`shapely.ops.transform` raises on the (valid, non-empty) point (1, 1); the
exception is swallowed inside `_scale_geometry_coordinates`, the original
geometry is kept, and the batch failure counter remains 0 — contradicting
the claim that a raising scale increments the failure counter. -/
theorem scale_raise_not_counted_counterexample :
    Kraise.shTransform (fun p => (p.1 * (11/10 : ℚ), p.2 * (11/10))) (.point 1 1) =
      none ∧
    scaleLoop Kraise (11/10 : ℚ) [Geometry.point 1 1] = ([Geometry.point 1 1], 0) :=
  ⟨rfl, rfl⟩

/-- C4 (amended): when no entity survives validation, the conversion
*succeeds* with an empty feature collection (`_create_geodataframe`
explicitly returns an empty GeoDataFrame and the pipeline serializes it);
no `NoValidFeatures`-style error is raised. -/
theorem conversion_no_features_empty_success {α : Type} [LinearOrderedField α]
    (K : ExtLib α) (piv : α) (cosf sinf : α → α) (entities : List (DxfEntity α))
    (tgt : String) (ext : Extraction α)
    (hext : extract_geometries_by_layer K piv cosf sinf entities true = .ok ext)
    (hempty : (create_geodataframe K ext.geometries_by_layer tgt).features = []) :
    convert_dxf_to_gis K piv cosf sinf entities tgt none true =
      .ok { features := [], crs_name := urn_crs tgt,
            coordinate_info := detect_coordinate_system_type
              (ext.geometries_by_layer.map fun l =>
                (l.1, l.2.map fun f => some f.geometry)) } := by
  simp [convert_dxf_to_gis, hext, Bind.bind, Except.bind, hempty]

theorem conversion_no_features_empty_success_witness :
    convert_dxf_to_gis (trivLib ℚ) 0 id id
        [{ layer := "L", color := 256, raw := .pointE .nan (.fin 0) }]
        "EPSG:4326" none true =
      .ok { features := [], crs_name := urn_crs "EPSG:4326",
            coordinate_info := detect_coordinate_system_type
              (((⟨[("L", [])], 1, 1⟩ : Extraction ℚ)).geometries_by_layer.map fun l =>
                (l.1, l.2.map fun f => some f.geometry)) } :=
  conversion_no_features_empty_success (trivLib ℚ) 0 id id
    [{ layer := "L", color := 256, raw := .pointE .nan (.fin 0) }] "EPSG:4326"
    ⟨[("L", [])], 1, 1⟩ rfl rfl

/-- C4 counterexample: a conversion in which the only entity fails
validation returns `ok` with zero features (and the "no coordinates"
classification) instead of failing with a `NoValidFeatures` error. -/
theorem conversion_zero_features_succeeds_counterexample :
    convert_dxf_to_gis (trivLib ℚ) 0 id id
        [{ layer := "L", color := 256, raw := .pointE .nan (.fin 0) }]
        "EPSG:4326" none true =
      .ok { features := [], crs_name := "urn:ogc:def:crs:EPSG::4326",
            coordinate_info :=
              { kind := .unknown, likely_system := .unknownSystem,
                sample_coords := [], x_range := (0, 0), y_range := (0, 0),
                suggestion := .noCoordinatesFound } } := by
  rfl

theorem crs_urn_uses_last_segment_witness :
    ∃ out, convert_dxf_to_gis (trivLib ℚ) 0 id id [] "ESRI:102006" none true =
        .ok out ∧ out.crs_name = urn_crs "ESRI:102006" :=
  ⟨_, rfl,
    crs_urn_uses_last_segment.2.2.2 (trivLib ℚ) 0 id id [] "ESRI:102006" none true _ rfl⟩

/-- C1 (amended): a POLYLINE/LWPOLYLINE marked closed whose valid (finite)
vertices contain at least 3 distinct points is never dropped: assuming the
repair operation returns valid geometry, the builder yields either a
LineString over the closed point sequence (on construction/repair failure
or empty result) or a valid non-empty areal geometry — the constructed
Polygon, or whatever geometry `buffer(0)` returned (possibly a
MultiPolygon).  When fewer than 3 distinct points remain, the result is the
LineString over the closed sequence instead of a Polygon.  Both entity
forms route through the same point pipeline. -/
theorem closed_polyline_fallback_chain {α : Type} [LinearOrderedField α]
    (K : ExtLib α)
    (hrepair : ∀ g g', K.buffer0 g = some g' → K.isValid g' = true) :
    (∀ (piv : α) (cosf sinf : α → α) (vertices : List (Fl α × Fl α)),
        entity_to_geometry K piv cosf sinf (.polylineE vertices true) =
          polylinePointsToGeometry K (validPoints vertices) true ∧
        entity_to_geometry K piv cosf sinf (.lwpolylineE vertices true) =
          polylinePointsToGeometry K (validPoints vertices) true) ∧
    (∀ points : List (α × α),
        3 ≤ (dedupKeepFirst (closeRing points).dropLast).length →
        ∃ g, polylinePointsToGeometry K points true = some g ∧
          (g = .lineString (closeRing points) ∨
            (K.isValid g = true ∧ K.isEmpty g = false))) ∧
    (∀ points : List (α × α), 2 < points.length →
        (dedupKeepFirst (closeRing points).dropLast).length < 3 →
        polylinePointsToGeometry K points true =
          some (.lineString (closeRing points))) := by
  refine ⟨fun piv cosf sinf vertices => ⟨rfl, rfl⟩, ?_, ?_⟩
  · intro points hd
    have hle := dedupKeepFirst_length_le ((closeRing points).dropLast)
    have hdrop : (closeRing points).dropLast.length = (closeRing points).length - 1 :=
      List.length_dropLast _
    have h3 : 3 ≤ points.length := by
      rcases closeRing_length_cases points with hc | hc <;> omega
    simp only [polylinePointsToGeometry]
    rw [if_neg (by omega)]
    rw [if_pos (by simp only [Bool.true_and, decide_eq_true_eq]; omega)]
    rw [if_neg (by omega)]
    cases hmk : K.mkPolygon (closeRing points) with
    | none => exact ⟨.lineString (closeRing points), rfl, Or.inl rfl⟩
    | some ring =>
        cases hc : K.coordsOk (.polygon ring) with
        | false => exact ⟨.lineString (closeRing points), by simp [hc], Or.inl rfl⟩
        | true =>
            cases hv : K.isValid (.polygon ring) with
            | true =>
                cases he : K.isEmpty (.polygon ring) with
                | true =>
                    exact ⟨.lineString (closeRing points), by simp [hc, hv, he],
                      Or.inl rfl⟩
                | false =>
                    exact ⟨.polygon ring, by simp [hc, hv, he], Or.inr ⟨hv, he⟩⟩
            | false =>
                cases hb : K.buffer0 (.polygon ring) with
                | none =>
                    exact ⟨.lineString (closeRing points), by simp [hc, hv, hb],
                      Or.inl rfl⟩
                | some rep =>
                    cases he : K.isEmpty rep with
                    | true =>
                        exact ⟨.lineString (closeRing points),
                          by simp [hc, hv, hb, he], Or.inl rfl⟩
                    | false =>
                        exact ⟨rep, by simp [hc, hv, hb, he],
                          Or.inr ⟨hrepair _ _ hb, he⟩⟩
  · intro points hlen hd
    simp only [polylinePointsToGeometry]
    rw [if_neg (by omega)]
    rw [if_pos (by simp only [Bool.true_and, decide_eq_true_eq]; omega)]
    rw [if_pos hd]

theorem closed_polyline_fallback_chain_witness :
    3 ≤ (dedupKeepFirst (closeRing [((0 : ℚ), (0 : ℚ)), (1, 0), (1, 1), (0, 1)]).dropLast).length ∧
    ∃ g, polylinePointsToGeometry (trivLib ℚ)
        [((0 : ℚ), (0 : ℚ)), (1, 0), (1, 1), (0, 1)] true = some g ∧
      (g = .lineString (closeRing [((0 : ℚ), (0 : ℚ)), (1, 0), (1, 1), (0, 1)]) ∨
        ((trivLib ℚ).isValid g = true ∧ (trivLib ℚ).isEmpty g = false)) :=
  ⟨by decide,
    (closed_polyline_fallback_chain (trivLib ℚ) (fun g g' _ => rfl)).2.1
      [((0 : ℚ), (0 : ℚ)), (1, 0), (1, 1), (0, 1)] (by decide)⟩

/-- C1 counterexample: the closed bowtie polyline has 4 distinct valid
vertices, its ring is invalid (self-intersecting), and `buffer(0)` repairs
it into a MultiPolygon of two triangles; the builder returns that
MultiPolygon as-is, which is neither a Polygon nor a LineString — so the
claim's "either a valid non-empty Polygon or a LineString" disjunction
fails on this input. -/
theorem closed_polyline_multipolygon_counterexample :
    polylinePointsToGeometry Kbow bowtiePoints true =
      some (.multiPolygon bowtieTriangles) ∧
    3 ≤ (dedupKeepFirst (closeRing bowtiePoints).dropLast).length ∧
    (∀ ring : List (ℚ × ℚ),
        Geometry.multiPolygon bowtieTriangles ≠ .polygon ring) ∧
    (∀ cs : List (ℚ × ℚ),
        Geometry.multiPolygon bowtieTriangles ≠ .lineString cs) :=
  ⟨by decide, by decide, fun ring h => Geometry.noConfusion h,
    fun cs h => Geometry.noConfusion h⟩

/-- C5: a Circle with finite centre and radius r > 0 becomes a polygon
whose ring has exactly 33 points sampled at angles 2·π·i/32 for i in 0..32,
with the first and last point equal and every point at Euclidean distance r
from the centre (exactly, in the real-number model); a circle with a
non-positive radius or any non-finite parameter is dropped. -/
theorem circle_ring_geometry (K : ExtLib ℝ)
    (hmk : ∀ ps, K.mkPolygon ps = some ps) :
    (∀ cx cy r : ℝ, 0 < r →
        ∃ ring, entity_to_geometry K Real.pi Real.cos Real.sin
            (.circleE (.fin cx) (.fin cy) (.fin r)) = some (.polygon ring) ∧
          ring.length = 33 ∧
          (∀ (i : ℕ) (hi : i < ring.length),
              ring.get ⟨i, hi⟩ =
                (cx + r * Real.cos (2 * Real.pi * (i : ℝ) / 32),
                 cy + r * Real.sin (2 * Real.pi * (i : ℝ) / 32))) ∧
          ring.head? = ring.getLast? ∧
          (∀ p ∈ ring, Real.sqrt ((p.1 - cx) ^ 2 + (p.2 - cy) ^ 2) = r)) ∧
    (∀ cx cy r : ℝ, r ≤ 0 →
        entity_to_geometry K Real.pi Real.cos Real.sin
          (.circleE (.fin cx) (.fin cy) (.fin r)) = none) ∧
    (∀ c1 c2 c3 : Fl ℝ,
        ¬ (c1.isfinite = true ∧ c2.isfinite = true ∧ c3.isfinite = true) →
        entity_to_geometry K Real.pi Real.cos Real.sin (.circleE c1 c2 c3) = none) := by
  refine ⟨?_, ?_, ?_⟩
  · intro cx cy r hr
    simp only [entity_to_geometry]
    rw [if_neg (by simp [Fl.isfinite])]
    rw [if_neg (by simp only [Fl.val]; exact not_le_of_lt hr)]
    rw [hmk]
    refine ⟨_, rfl, ?_, ?_, ?_, ?_⟩
    · simp
    · intro i hi
      rw [List.get_eq_getElem]
      simp only [List.getElem_map, List.getElem_range, Fl.val]
    · simp only [Fl.val]
      have hmap0 : ((List.range 33).map (fun (i : ℕ) =>
          (cx + r * Real.cos (2 * Real.pi * (i : ℝ) / 32),
           cy + r * Real.sin (2 * Real.pi * (i : ℝ) / 32)))).head? =
          some (cx + r * Real.cos (2 * Real.pi * ((0 : ℕ) : ℝ) / 32),
            cy + r * Real.sin (2 * Real.pi * ((0 : ℕ) : ℝ) / 32)) := by
        rw [show (33 : ℕ) = 32 + 1 from rfl, List.range_succ_eq_map, List.map_cons,
          List.head?_cons]
      have hmap32 : ((List.range 33).map (fun (i : ℕ) =>
          (cx + r * Real.cos (2 * Real.pi * (i : ℝ) / 32),
           cy + r * Real.sin (2 * Real.pi * (i : ℝ) / 32)))).getLast? =
          some (cx + r * Real.cos (2 * Real.pi * ((32 : ℕ) : ℝ) / 32),
            cy + r * Real.sin (2 * Real.pi * ((32 : ℕ) : ℝ) / 32)) := by
        rw [show (33 : ℕ) = 32 + 1 from rfl, List.range_succ, List.map_append,
          List.map_cons, List.map_nil, List.getLast?_concat]
      rw [hmap0, hmap32]
      have h0 : 2 * Real.pi * ((0 : ℕ) : ℝ) / 32 = 0 := by norm_num
      have h32 : 2 * Real.pi * ((32 : ℕ) : ℝ) / 32 = 2 * Real.pi := by
        push_cast
        ring
      rw [h0, h32, Real.cos_zero, Real.sin_zero, Real.cos_two_pi, Real.sin_two_pi]
    · intro p hp
      simp only [Fl.val] at hp
      obtain ⟨i, hi, rfl⟩ := List.mem_map.mp hp
      have key : (cx + r * Real.cos (2 * Real.pi * (i : ℝ) / 32) - cx) ^ 2 +
          (cy + r * Real.sin (2 * Real.pi * (i : ℝ) / 32) - cy) ^ 2 =
          r ^ 2 := by
        have hsc := Real.sin_sq_add_cos_sq (2 * Real.pi * (i : ℝ) / 32)
        nlinarith [hsc]
      rw [key, Real.sqrt_sq hr.le]
  · intro cx cy r hr
    simp only [entity_to_geometry]
    rw [if_neg (by simp [Fl.isfinite])]
    rw [if_pos (by simp only [Fl.val]; exact hr)]
  · intro c1 c2 c3 h
    simp only [entity_to_geometry]
    rw [if_pos (fun hcontra => h (by simpa [Bool.and_eq_true, and_assoc] using hcontra))]

theorem circle_ring_geometry_witness :
    (0 : ℝ) < 1 ∧
    ∃ ring, entity_to_geometry (trivLib ℝ) Real.pi Real.cos Real.sin
        (.circleE (.fin 0) (.fin 0) (.fin 1)) = some (.polygon ring) ∧
      ring.length = 33 ∧
      (∀ (i : ℕ) (hi : i < ring.length),
          ring.get ⟨i, hi⟩ =
            ((0 : ℝ) + 1 * Real.cos (2 * Real.pi * (i : ℝ) / 32),
             (0 : ℝ) + 1 * Real.sin (2 * Real.pi * (i : ℝ) / 32))) ∧
      ring.head? = ring.getLast? ∧
      (∀ p ∈ ring, Real.sqrt ((p.1 - 0) ^ 2 + (p.2 - 0) ^ 2) = 1) :=
  ⟨by norm_num,
    (circle_ring_geometry (trivLib ℝ) (fun ps => rfl)).1 0 0 1 (by norm_num)⟩

end DxfProcessor
